import Mathlib

/-!
Verification of the p5py OpenGL renderer (`p5py/opengl/renderer.py`).

The module is embedded shallowly:

* Python exceptions become `Except PyError`.
* The module-level `sketch_attrs` dictionary becomes the `SketchAttrs`
  structure; it is external state that the renderer only reads.
* Calls into the OpenGL C API become events in a `List GLCall` trace that
  every operation returns alongside its state.
* The `self.geoms` Python dictionary becomes an association list from the
  shape fingerprint to a `GeomEntry`, inserted in dictionary insertion order.
* Vertex coordinates are carried as integers: the renderer never computes
  with them, it only flattens and uploads them, so the carrier type is
  irrelevant to every property proved here.
-/

namespace P5

/-- Python exceptions raised (or documented) by the renderer module. -/
inductive PyError where
  | notImplementedError (msg : String)
  | keyError (key : String)
  | uniformNotRegistered (name : String)
deriving DecidableEq, Repr

/-- An RGBA color; `normalized` in the Python source merely exposes the
components, so the color value itself stands for its components. -/
structure Color where
  r : Int
  g : Int
  b : Int
  a : Int
deriving DecidableEq, Repr

/-- A shape: an ordered list of 3-D vertex positions and an ordered list of
faces, each face a list of vertex indices (`shape.vertices`, `shape.faces`). -/
structure Shape where
  vertices : List (Int × Int × Int)
  faces : List (List Nat)
deriving DecidableEq, Repr

/-- The cache key computed at renderer.py line 205 as `str(shape.__dict__)`.
The string is a function of the shape's full field data, and distinct field
data print to distinct dictionary strings, so the fingerprint is modelled by
the shape value itself. -/
def shape_hash (shape : Shape) : Shape := shape

/-- Draw primitive modes used by the renderer (`GL_TRIANGLES`,
`GL_LINE_LOOP`). -/
inductive DrawMode where
  | triangles
  | lineLoop
deriving DecidableEq, Repr

/-- Buffer binding targets (`GL_ARRAY_BUFFER`, `GL_ELEMENT_ARRAY_BUFFER`). -/
inductive BufTarget where
  | arrayBuffer
  | elementArrayBuffer
deriving DecidableEq, Repr

/-- Observable calls into the graphics API, in program order.
`checkSupport` is the event a capability check would emit; it lets the
development state whether `initialize` performs one. -/
inductive GLCall where
  | glEnableDepthTest
  | glDepthFunc
  | glViewport (w h : Nat)
  | glGenBuffer (id : Nat)
  | glBindBuffer (target : BufTarget) (id : Nat)
  | glBufferData (target : BufTarget) (size : Nat)
  | glEnableVertexAttribArray
  | glVertexAttribPointer
  | setUniform (name : String) (c : Color)
  | glDrawElements (mode : DrawMode) (count : Nat)
  | glClearColor (c : Color)
  | glClear
  | checkSupport
deriving DecidableEq, Repr

/-- First-match association-list lookup, modelling Python dictionary access. -/
def dictLookup {α β : Type} [DecidableEq α] : List (α × β) → α → Option β
  | [], _ => none
  | (a, b) :: rest, k => if a = k then some b else dictLookup rest k

/-- Modelled from the spec: the `ShaderProgram` class lives in
`p5py/opengl/shader.py`, which is not part of the sources; §4.4 of the spec
says `add uniform(name, setter)` registers a named uniform slot and
`set uniform data(name, values...)` pushes values through the registered
setter, failing if the name is unregistered. -/
structure ShaderProgram where
  uniform_names : List String
  uniform_values : List (String × Color)
deriving DecidableEq, Repr

/-- Modelled from the spec: register a named uniform slot (§4.4). -/
def ShaderProgram.add_uniform (p : ShaderProgram) (name : String) :
    ShaderProgram :=
  { p with uniform_names := p.uniform_names ++ [name] }

/-- Modelled from the spec: push values to a registered uniform, failing if
the name is unregistered (§4.4). The newest value shadows older ones. -/
def ShaderProgram.set_uniform_data (p : ShaderProgram) (name : String)
    (c : Color) : Except PyError ShaderProgram :=
  if name ∈ p.uniform_names then
    .ok { p with uniform_values := (name, c) :: p.uniform_values }
  else
    .error (.uniformNotRegistered name)

/-- The value currently held by a named uniform slot, if any was pushed. -/
def ShaderProgram.uniform_value (p : ShaderProgram) (name : String) :
    Option Color :=
  dictLookup p.uniform_values name

/-- One entry of `self.geoms` (renderer.py lines 241-245). -/
structure GeomEntry where
  vertex_buffer : Nat
  index_buffer : Nat
  num_elements : Nat
deriving DecidableEq, Repr

/-- The mutable state of an `OpenGLRenderer` instance: the shader program,
the buffer cache `geoms`, and a counter handing out fresh GL buffer names
(`glGenBuffers` results). -/
structure RendererState where
  shader_program : ShaderProgram
  geoms : List (Shape × GeomEntry)
  next_buffer_id : Nat
deriving DecidableEq, Repr

/-- The module-level `sketch_attrs` dictionary: externally owned sketch
configuration read by the renderer. -/
structure SketchAttrs where
  width : Nat
  height : Nat
  fill_enabled : Bool
  stroke_enabled : Bool
  fill_color : Color
  stroke_color : Color
  background_color : Color
deriving DecidableEq, Repr

namespace BaseRenderer

/-- `BaseRenderer.initialize` (renderer.py line 45): raises
`NotImplementedError("Abstract")`. -/
def setup : Except PyError Unit := .error (.notImplementedError "Abstract")

/-- `BaseRenderer.check_support` (line 49): raises
`NotImplementedError("Abstract")`; its docstring says implementations raise
`RuntimeError` if the renderer is not supported. -/
def check_support : Except PyError Unit :=
  .error (.notImplementedError "Abstract")

/-- `BaseRenderer.pre_render` (line 59): `pass`, a no-op. -/
def pre_render : Except PyError Unit := .ok ()

/-- `BaseRenderer.render` (line 72): raises `NotImplementedError("Abstract")`. -/
def render (_shape : Shape) : Except PyError Unit :=
  .error (.notImplementedError "Abstract")

/-- `BaseRenderer.post_render` (line 80): `pass`, a no-op. -/
def post_render : Except PyError Unit := .ok ()

/-- `BaseRenderer.clear` (line 89): raises `NotImplementedError("Abstract")`. -/
def clear : Except PyError Unit := .error (.notImplementedError "Abstract")

/-- `BaseRenderer.cleanup` (lines 93-99): the body is `pass`, a silent
no-op — it does not raise. -/
def cleanup : Except PyError Unit := .ok ()

/-- `BaseRenderer.test_render` (line 101): raises
`NotImplementedError("Abstract")`. -/
def test_render : Except PyError Unit :=
  .error (.notImplementedError "Abstract")

end BaseRenderer

namespace OpenGLRenderer

/-- `OpenGLRenderer.__init__` (lines 124-134): a fresh shader program and an
empty `geoms` cache. -/
def init : RendererState :=
  { shader_program := { uniform_names := [], uniform_values := [] },
    geoms := [],
    next_buffer_id := 0 }

/-- `OpenGLRenderer.check_support`: not overridden, so the inherited
`BaseRenderer.check_support` runs. -/
def check_support : Except PyError Unit := BaseRenderer.check_support

/-- `OpenGLRenderer._init_shaders` (lines 149-184): compiles, attaches and
links the two fixed shader sources, activates the program, and registers the
uniform `fill_color`. The fixed sources are valid, so compilation is modelled
as succeeding; the state effect is the uniform registration. -/
def _init_shaders (st : RendererState) : RendererState :=
  { st with shader_program := st.shader_program.add_uniform "fill_color" }

/-- `OpenGLRenderer.initialize` (lines 136-147): enables depth testing, sets
the depth function, sets the viewport from the sketch attributes, then runs
`_init_shaders`. No other step precedes these. -/
def setup (attrs : SketchAttrs) (st : RendererState) :
    RendererState × List GLCall :=
  (_init_shaders st,
   [GLCall.glEnableDepthTest, GLCall.glDepthFunc,
    GLCall.glViewport attrs.width attrs.height])

/-- `OpenGLRenderer._create_buffers` (lines 186-246): if the shape's
fingerprint is already a key of `geoms`, return it at once; otherwise
generate a vertex and an index buffer, upload the flattened vertex and face
data, set the vertex attribute layout, record the cache entry and return the
fingerprint. -/
def _create_buffers (st : RendererState) (shape : Shape) :
    Shape × RendererState × List GLCall :=
  match dictLookup st.geoms (shape_hash shape) with
  | some _ => (shape_hash shape, st, [])
  | none =>
    (shape_hash shape,
     { st with
        geoms := st.geoms ++
          [(shape_hash shape,
            { vertex_buffer := st.next_buffer_id,
              index_buffer := st.next_buffer_id + 1,
              num_elements := shape.faces.flatten.length })],
        next_buffer_id := st.next_buffer_id + 2 },
     [GLCall.glGenBuffer st.next_buffer_id,
      GLCall.glGenBuffer (st.next_buffer_id + 1),
      GLCall.glBindBuffer BufTarget.arrayBuffer st.next_buffer_id,
      GLCall.glBufferData BufTarget.arrayBuffer
        ((shape.vertices.map (fun v => [v.1, v.2.1, v.2.2])).flatten).length,
      GLCall.glBindBuffer BufTarget.elementArrayBuffer (st.next_buffer_id + 1),
      GLCall.glBufferData BufTarget.elementArrayBuffer
        shape.faces.flatten.length,
      GLCall.glEnableVertexAttribArray,
      GLCall.glVertexAttribPointer])

/-- The fill block of `OpenGLRenderer._draw_buffers` (lines 256-268): when
fill is enabled, push the fill color into the `fill_color` uniform, bind the
index buffer and draw `GL_TRIANGLES` over all cached elements. -/
def fill_pass (attrs : SketchAttrs) (entry : GeomEntry) (st : RendererState) :
    Except PyError (RendererState × List GLCall) :=
  if attrs.fill_enabled then
    match st.shader_program.set_uniform_data "fill_color" attrs.fill_color with
    | .error e => .error e
    | .ok prog =>
      .ok ({ st with shader_program := prog },
           [GLCall.setUniform "fill_color" attrs.fill_color,
            GLCall.glBindBuffer BufTarget.elementArrayBuffer
              entry.index_buffer,
            GLCall.glDrawElements DrawMode.triangles entry.num_elements])
  else .ok (st, [])

/-- The stroke block of `OpenGLRenderer._draw_buffers` (lines 276-287): when
stroke is enabled, push the stroke color into the same `fill_color` uniform
and draw `GL_LINE_LOOP` over all cached elements; the element buffer is not
re-bound for this pass. -/
def stroke_pass (attrs : SketchAttrs) (entry : GeomEntry)
    (st : RendererState) : Except PyError (RendererState × List GLCall) :=
  if attrs.stroke_enabled then
    match st.shader_program.set_uniform_data "fill_color"
        attrs.stroke_color with
    | .error e => .error e
    | .ok prog =>
      .ok ({ st with shader_program := prog },
           [GLCall.setUniform "fill_color" attrs.stroke_color,
            GLCall.glDrawElements DrawMode.lineLoop entry.num_elements])
  else .ok (st, [])

/-- `OpenGLRenderer._draw_buffers` (lines 248-287): bind the cached vertex
buffer, set the attribute layout, then run the fill block and the stroke
block. A missing cache key raises `KeyError`. -/
def _draw_buffers (attrs : SketchAttrs) (st : RendererState) (h : Shape) :
    Except PyError (RendererState × List GLCall) :=
  match dictLookup st.geoms h with
  | none => .error (.keyError "shape_hash")
  | some entry =>
    match fill_pass attrs entry st with
    | .error e => .error e
    | .ok (st1, fill_calls) =>
      match stroke_pass attrs entry st1 with
      | .error e => .error e
      | .ok (st2, stroke_calls) =>
        .ok (st2,
             [GLCall.glBindBuffer BufTarget.arrayBuffer entry.vertex_buffer,
              GLCall.glEnableVertexAttribArray,
              GLCall.glVertexAttribPointer]
             ++ fill_calls ++ stroke_calls)

/-- `OpenGLRenderer.render` (lines 289-297): `_create_buffers` followed by
`_draw_buffers` on the returned fingerprint. -/
def render (attrs : SketchAttrs) (st : RendererState) (shape : Shape) :
    Except PyError (RendererState × List GLCall) :=
  match _create_buffers st shape with
  | (h, st1, create_calls) =>
    match _draw_buffers attrs st1 h with
    | .error e => .error e
    | .ok (st2, draw_calls) => .ok (st2, create_calls ++ draw_calls)

/-- `OpenGLRenderer.clear` (lines 299-302): set the clear color from the
background color and clear the color and depth buffers. -/
def clear (attrs : SketchAttrs) (st : RendererState) :
    RendererState × List GLCall :=
  (st, [GLCall.glClearColor attrs.background_color, GLCall.glClear])

end OpenGLRenderer

/-- The world visible to the renderer: the externally owned sketch attributes
and the renderer's own state. -/
structure World where
  sketch_attrs : SketchAttrs
  renderer : RendererState
deriving DecidableEq, Repr

/-- A `render` call as a step on the whole world: the source only ever writes
`self.geoms` and the shader program, never `sketch_attrs`. -/
def render_step (w : World) (shape : Shape) :
    Except PyError (World × List GLCall) :=
  match OpenGLRenderer.render w.sketch_attrs w.renderer shape with
  | .error e => .error e
  | .ok (st, calls) => .ok ({ w with renderer := st }, calls)

/-- A `clear` call as a step on the whole world. -/
def clear_step (w : World) : World × List GLCall :=
  match OpenGLRenderer.clear w.sketch_attrs w.renderer with
  | (st, calls) => ({ w with renderer := st }, calls)

/-- Render a list of shapes in order, stopping at the first error. -/
def render_list (attrs : SketchAttrs) :
    RendererState → List Shape → Except PyError RendererState
  | st, [] => .ok st
  | st, shape :: rest =>
    match OpenGLRenderer.render attrs st shape with
    | .error e => .error e
    | .ok (st1, _) => render_list attrs st1 rest

/-- The element counts of the draw calls of a given mode, in trace order. -/
def drawCounts (mode : DrawMode) (calls : List GLCall) : List Nat :=
  calls.filterMap fun c =>
    match c with
    | GLCall.glDrawElements m n => if m = mode then some n else none
    | _ => none

/-- The element counts of all draw calls, of any mode, in trace order. -/
def drawCountsAll (calls : List GLCall) : List Nat :=
  calls.filterMap fun c =>
    match c with
    | GLCall.glDrawElements _ n => some n
    | _ => none

/-- The buffer names generated by `glGenBuffers` calls in a trace. -/
def genBufferCalls (calls : List GLCall) : List Nat :=
  calls.filterMap fun c =>
    match c with
    | GLCall.glGenBuffer n => some n
    | _ => none

/-- Every cache entry records the element count of the shape it was built
from. Holds for every reachable renderer state. -/
def CacheConsistent (st : RendererState) : Prop :=
  ∀ p ∈ st.geoms, (p.2).num_elements = (p.1).faces.flatten.length

/-- The cache entry `_create_buffers` records on a cache miss. -/
def newGeomEntry (st : RendererState) (shape : Shape) : GeomEntry :=
  { vertex_buffer := st.next_buffer_id,
    index_buffer := st.next_buffer_id + 1,
    num_elements := shape.faces.flatten.length }

/-- The renderer state after a cache miss in `_create_buffers`. -/
def stAfterCreate (st : RendererState) (shape : Shape) : RendererState :=
  { st with
     geoms := st.geoms ++ [(shape_hash shape, newGeomEntry st shape)],
     next_buffer_id := st.next_buffer_id + 2 }

/-- The GL trace of a cache miss in `_create_buffers`. -/
def createCalls (st : RendererState) (shape : Shape) : List GLCall :=
  [GLCall.glGenBuffer st.next_buffer_id,
   GLCall.glGenBuffer (st.next_buffer_id + 1),
   GLCall.glBindBuffer BufTarget.arrayBuffer st.next_buffer_id,
   GLCall.glBufferData BufTarget.arrayBuffer
     ((shape.vertices.map (fun v => [v.1, v.2.1, v.2.2])).flatten).length,
   GLCall.glBindBuffer BufTarget.elementArrayBuffer (st.next_buffer_id + 1),
   GLCall.glBufferData BufTarget.elementArrayBuffer
     shape.faces.flatten.length,
   GLCall.glEnableVertexAttribArray,
   GLCall.glVertexAttribPointer]

/-- The GL trace the fill block emits when fill is enabled. -/
def fillCalls (attrs : SketchAttrs) (entry : GeomEntry) : List GLCall :=
  [GLCall.setUniform "fill_color" attrs.fill_color,
   GLCall.glBindBuffer BufTarget.elementArrayBuffer entry.index_buffer,
   GLCall.glDrawElements DrawMode.triangles entry.num_elements]

/-- The GL trace the stroke block emits when stroke is enabled. -/
def strokeCalls (attrs : SketchAttrs) (entry : GeomEntry) : List GLCall :=
  [GLCall.setUniform "fill_color" attrs.stroke_color,
   GLCall.glDrawElements DrawMode.lineLoop entry.num_elements]

/-- The fixed buffer-binding preamble of `_draw_buffers`. -/
def setupCalls (entry : GeomEntry) : List GLCall :=
  [GLCall.glBindBuffer BufTarget.arrayBuffer entry.vertex_buffer,
   GLCall.glEnableVertexAttribArray,
   GLCall.glVertexAttribPointer]

theorem dictLookup_append_of_none {α β : Type} [DecidableEq α]
    {l1 : List (α × β)} (l2 : List (α × β)) {k : α}
    (h : dictLookup l1 k = none) :
    dictLookup (l1 ++ l2) k = dictLookup l2 k := by
  induction l1 with
  | nil => simp
  | cons p t ih =>
    obtain ⟨a, b⟩ := p
    by_cases hak : a = k
    · simp [dictLookup, hak] at h
    · simp only [dictLookup, if_neg hak] at h ⊢
      exact ih h

theorem dictLookup_append_of_some {α β : Type} [DecidableEq α]
    {l1 : List (α × β)} (l2 : List (α × β)) {k : α} {v : β}
    (h : dictLookup l1 k = some v) :
    dictLookup (l1 ++ l2) k = some v := by
  induction l1 with
  | nil => simp [dictLookup] at h
  | cons p t ih =>
    obtain ⟨a, b⟩ := p
    by_cases hak : a = k
    · simp only [dictLookup, if_pos hak] at h ⊢
      exact h
    · simp only [dictLookup, if_neg hak] at h ⊢
      exact ih h

theorem mem_of_dictLookup_some {α β : Type} [DecidableEq α]
    {l : List (α × β)} {k : α} {v : β}
    (h : dictLookup l k = some v) : (k, v) ∈ l := by
  induction l with
  | nil => simp [dictLookup] at h
  | cons p t ih =>
    obtain ⟨a, b⟩ := p
    by_cases hak : a = k
    · simp only [dictLookup, if_pos hak] at h
      subst hak
      cases h
      exact List.mem_cons_self _ _
    · simp only [dictLookup, if_neg hak] at h
      exact List.mem_cons_of_mem _ (ih h)

theorem dictLookup_some_of_mem_keys {α β : Type} [DecidableEq α]
    {l : List (α × β)} {k : α} {v : β}
    (h : (k, v) ∈ l) : ∃ v', dictLookup l k = some v' := by
  induction l with
  | nil => simp at h
  | cons p t ih =>
    obtain ⟨a, b⟩ := p
    by_cases hak : a = k
    · exact ⟨b, by simp [dictLookup, hak]⟩
    · cases h with
      | head => exact absurd rfl hak
      | tail _ h => simpa [dictLookup, hak] using ih h

theorem set_uniform_data_of_mem {p : ShaderProgram} {name : String}
    {c : Color} (h : name ∈ p.uniform_names) :
    p.set_uniform_data name c =
      .ok { p with uniform_values := (name, c) :: p.uniform_values } := by
  simp [ShaderProgram.set_uniform_data, h]

theorem set_uniform_data_ok_inv {p prog : ShaderProgram} {name : String}
    {c : Color} (h : p.set_uniform_data name c = .ok prog) :
    prog.uniform_names = p.uniform_names ∧
    prog.uniform_values = (name, c) :: p.uniform_values := by
  unfold ShaderProgram.set_uniform_data at h
  split at h
  · cases h
    exact ⟨rfl, rfl⟩
  · cases h

open OpenGLRenderer

theorem fill_pass_ok_inv {attrs : SketchAttrs} {entry : GeomEntry}
    {st st1 : RendererState} {calls : List GLCall}
    (h : fill_pass attrs entry st = .ok (st1, calls)) :
    st1.geoms = st.geoms ∧
    st1.next_buffer_id = st.next_buffer_id ∧
    st1.shader_program.uniform_names = st.shader_program.uniform_names ∧
    calls = (if attrs.fill_enabled then fillCalls attrs entry else []) ∧
    (attrs.fill_enabled = true →
      st1.shader_program.uniform_value "fill_color" = some attrs.fill_color) ∧
    (attrs.fill_enabled = false → st1 = st) := by
  unfold fill_pass at h
  split at h
  · rename_i hf
    split at h
    · cases h
    · rename_i prog hprog
      cases h
      obtain ⟨hn, hv⟩ := set_uniform_data_ok_inv hprog
      refine ⟨rfl, rfl, hn, by simp [hf, fillCalls], ?_, ?_⟩
      · intro _
        simp [ShaderProgram.uniform_value, hv, dictLookup]
      · intro hff
        rw [hf] at hff
        cases hff
  · rename_i hf
    rw [Bool.not_eq_true] at hf
    cases h
    exact ⟨rfl, rfl, rfl, by simp [hf], by simp [hf], fun _ => rfl⟩

theorem stroke_pass_ok_inv {attrs : SketchAttrs} {entry : GeomEntry}
    {st st1 : RendererState} {calls : List GLCall}
    (h : stroke_pass attrs entry st = .ok (st1, calls)) :
    st1.geoms = st.geoms ∧
    st1.next_buffer_id = st.next_buffer_id ∧
    st1.shader_program.uniform_names = st.shader_program.uniform_names ∧
    calls = (if attrs.stroke_enabled then strokeCalls attrs entry else []) ∧
    (attrs.stroke_enabled = true →
      st1.shader_program.uniform_value "fill_color" =
        some attrs.stroke_color) ∧
    (attrs.stroke_enabled = false → st1 = st) := by
  unfold stroke_pass at h
  split at h
  · rename_i hs
    split at h
    · cases h
    · rename_i prog hprog
      cases h
      obtain ⟨hn, hv⟩ := set_uniform_data_ok_inv hprog
      refine ⟨rfl, rfl, hn, by simp [hs, strokeCalls], ?_, ?_⟩
      · intro _
        simp [ShaderProgram.uniform_value, hv, dictLookup]
      · intro hss
        rw [hs] at hss
        cases hss
  · rename_i hs
    rw [Bool.not_eq_true] at hs
    cases h
    exact ⟨rfl, rfl, rfl, by simp [hs], by simp [hs], fun _ => rfl⟩

theorem fill_pass_eq_of_reg {attrs : SketchAttrs} {entry : GeomEntry}
    {st : RendererState}
    (hreg : "fill_color" ∈ st.shader_program.uniform_names) :
    ∃ st1, fill_pass attrs entry st =
        .ok (st1, if attrs.fill_enabled then fillCalls attrs entry else []) ∧
      st1.shader_program.uniform_names = st.shader_program.uniform_names := by
  cases hf : attrs.fill_enabled
  · exact ⟨st, by simp [fill_pass, hf], rfl⟩
  · refine ⟨{ st with shader_program := { st.shader_program with
        uniform_values := ("fill_color", attrs.fill_color) ::
          st.shader_program.uniform_values } }, ?_, rfl⟩
    simp [fill_pass, hf, set_uniform_data_of_mem hreg, fillCalls]

theorem stroke_pass_eq_of_reg {attrs : SketchAttrs} {entry : GeomEntry}
    {st : RendererState}
    (hreg : "fill_color" ∈ st.shader_program.uniform_names) :
    ∃ st1, stroke_pass attrs entry st =
        .ok (st1,
          if attrs.stroke_enabled then strokeCalls attrs entry else []) ∧
      st1.shader_program.uniform_names = st.shader_program.uniform_names := by
  cases hs : attrs.stroke_enabled
  · exact ⟨st, by simp [stroke_pass, hs], rfl⟩
  · refine ⟨{ st with shader_program := { st.shader_program with
        uniform_values := ("fill_color", attrs.stroke_color) ::
          st.shader_program.uniform_values } }, ?_, rfl⟩
    simp [stroke_pass, hs, set_uniform_data_of_mem hreg, strokeCalls]

theorem draw_buffers_ok_inv {attrs : SketchAttrs} {st st' : RendererState}
    {k : Shape} {calls : List GLCall}
    (hok : OpenGLRenderer._draw_buffers attrs st k = .ok (st', calls)) :
    ∃ entry, dictLookup st.geoms k = some entry ∧
      st'.geoms = st.geoms ∧
      st'.next_buffer_id = st.next_buffer_id ∧
      st'.shader_program.uniform_names = st.shader_program.uniform_names ∧
      calls = setupCalls entry
        ++ (if attrs.fill_enabled then fillCalls attrs entry else [])
        ++ (if attrs.stroke_enabled then strokeCalls attrs entry else []) ∧
      (attrs.stroke_enabled = true →
        st'.shader_program.uniform_value "fill_color" =
          some attrs.stroke_color) := by
  unfold OpenGLRenderer._draw_buffers at hok
  split at hok
  · cases hok
  · rename_i entry hl
    split at hok
    · cases hok
    · rename_i st1 fill_calls hfp
      split at hok
      · cases hok
      · rename_i st2 stroke_calls hsp
        cases hok
        obtain ⟨hg1, hn1, hu1, hc1, _, _⟩ := fill_pass_ok_inv hfp
        obtain ⟨hg2, hn2, hu2, hc2, hval2, _⟩ := stroke_pass_ok_inv hsp
        refine ⟨entry, hl, ?_, ?_, ?_, ?_, hval2⟩
        · rw [hg2, hg1]
        · rw [hn2, hn1]
        · rw [hu2, hu1]
        · rw [hc1, hc2, setupCalls]

theorem draw_buffers_ok_of_reg {attrs : SketchAttrs} {st : RendererState}
    {k : Shape} {entry : GeomEntry}
    (hl : dictLookup st.geoms k = some entry)
    (hreg : "fill_color" ∈ st.shader_program.uniform_names) :
    ∃ st', OpenGLRenderer._draw_buffers attrs st k =
      .ok (st', setupCalls entry
        ++ (if attrs.fill_enabled then fillCalls attrs entry else [])
        ++ (if attrs.stroke_enabled then strokeCalls attrs entry else [])) := by
  obtain ⟨st1, hfp, hn1⟩ := @fill_pass_eq_of_reg attrs entry st hreg
  have hreg1 : "fill_color" ∈ st1.shader_program.uniform_names := by
    rw [hn1]
    exact hreg
  obtain ⟨st2, hsp, _⟩ := @stroke_pass_eq_of_reg attrs entry st1 hreg1
  refine ⟨st2, ?_⟩
  simp only [OpenGLRenderer._draw_buffers, hl, hfp, hsp, setupCalls]

theorem create_buffers_hit {st : RendererState} {shape : Shape}
    {e : GeomEntry} (h : dictLookup st.geoms (shape_hash shape) = some e) :
    OpenGLRenderer._create_buffers st shape = (shape_hash shape, st, []) := by
  simp [OpenGLRenderer._create_buffers, h]

theorem create_buffers_miss {st : RendererState} {shape : Shape}
    (h : dictLookup st.geoms (shape_hash shape) = none) :
    OpenGLRenderer._create_buffers st shape =
      (shape_hash shape, stAfterCreate st shape, createCalls st shape) := by
  simp [OpenGLRenderer._create_buffers, h, stAfterCreate, newGeomEntry,
    createCalls]

theorem render_ok_hit {attrs : SketchAttrs} {st st' : RendererState}
    {shape : Shape} {calls : List GLCall} {e : GeomEntry}
    (hl : dictLookup st.geoms (shape_hash shape) = some e)
    (hok : OpenGLRenderer.render attrs st shape = .ok (st', calls)) :
    OpenGLRenderer._draw_buffers attrs st (shape_hash shape) =
      .ok (st', calls) := by
  simp only [OpenGLRenderer.render, create_buffers_hit hl] at hok
  split at hok
  · cases hok
  · rename_i st2 dc hdb
    cases hok
    simpa using hdb

theorem render_ok_miss {attrs : SketchAttrs} {st st' : RendererState}
    {shape : Shape} {calls : List GLCall}
    (hl : dictLookup st.geoms (shape_hash shape) = none)
    (hok : OpenGLRenderer.render attrs st shape = .ok (st', calls)) :
    ∃ dc, OpenGLRenderer._draw_buffers attrs (stAfterCreate st shape)
        (shape_hash shape) = .ok (st', dc) ∧
      calls = createCalls st shape ++ dc := by
  simp only [OpenGLRenderer.render, create_buffers_miss hl] at hok
  split at hok
  · cases hok
  · rename_i st2 dc hdb
    cases hok
    exact ⟨dc, hdb, rfl⟩

theorem dictLookup_stAfterCreate_self {st : RendererState} {shape : Shape}
    (hl : dictLookup st.geoms (shape_hash shape) = none) :
    dictLookup (stAfterCreate st shape).geoms (shape_hash shape) =
      some (newGeomEntry st shape) := by
  show dictLookup
    (st.geoms ++ [(shape_hash shape, newGeomEntry st shape)])
    (shape_hash shape) = some (newGeomEntry st shape)
  rw [dictLookup_append_of_none _ hl]
  simp [dictLookup]

theorem render_ok_geoms_miss {attrs : SketchAttrs} {st st' : RendererState}
    {shape : Shape} {calls : List GLCall}
    (hl : dictLookup st.geoms (shape_hash shape) = none)
    (hok : OpenGLRenderer.render attrs st shape = .ok (st', calls)) :
    st'.geoms = st.geoms ++ [(shape_hash shape, newGeomEntry st shape)] := by
  obtain ⟨dc, hdb, _⟩ := render_ok_miss hl hok
  obtain ⟨entry, _, hg, _⟩ := draw_buffers_ok_inv hdb
  rw [hg]
  rfl

theorem render_ok_lookup_some {attrs : SketchAttrs} {st st' : RendererState}
    {shape : Shape} {calls : List GLCall}
    (hok : OpenGLRenderer.render attrs st shape = .ok (st', calls)) :
    ∃ e, dictLookup st'.geoms (shape_hash shape) = some e := by
  cases hl : dictLookup st.geoms (shape_hash shape) with
  | some e =>
    obtain ⟨entry, hl', hg, _⟩ := draw_buffers_ok_inv (render_ok_hit hl hok)
    exact ⟨e, by rw [hg]; exact hl⟩
  | none =>
    obtain ⟨dc, hdb, _⟩ := render_ok_miss hl hok
    obtain ⟨entry, hl', hg, _⟩ := draw_buffers_ok_inv hdb
    refine ⟨newGeomEntry st shape, ?_⟩
    rw [hg]
    exact dictLookup_stAfterCreate_self hl

instance (st : RendererState) : Decidable (CacheConsistent st) := by
  unfold CacheConsistent
  infer_instance

/-- The renderer state on a given `Except` result, defaulting to a fresh
instance; lets concrete runs be named without pattern matching. -/
def resultState (r : Except PyError (RendererState × List GLCall)) :
    RendererState :=
  match r with
  | .ok (st, _) => st
  | .error _ => OpenGLRenderer.init

/-- The GL trace on a given `Except` result, defaulting to the empty trace. -/
def resultCalls (r : Except PyError (RendererState × List GLCall)) :
    List GLCall :=
  match r with
  | .ok (_, calls) => calls
  | .error _ => []

/-- Sample colors for concrete runs. -/
def redColor : Color := ⟨255, 0, 0, 255⟩

def greenColor : Color := ⟨0, 255, 0, 255⟩

def blueColor : Color := ⟨0, 0, 255, 255⟩

/-- Sketch attributes with fill enabled and stroke disabled. -/
def attrsFillOnly : SketchAttrs :=
  { width := 100, height := 100,
    fill_enabled := true, stroke_enabled := false,
    fill_color := redColor, stroke_color := greenColor,
    background_color := blueColor }

/-- Sketch attributes with both fill and stroke disabled. -/
def attrsBothOff : SketchAttrs :=
  { attrsFillOnly with fill_enabled := false, stroke_enabled := false }

/-- Sketch attributes with fill and stroke both enabled. -/
def attrsStrokeOn : SketchAttrs :=
  { attrsFillOnly with stroke_enabled := true }

/-- The unit square of the spec scenario: 4 vertices, 2 triangular faces. -/
def unitSquare : Shape :=
  { vertices := [(0, 0, 0), (1, 0, 0), (1, 1, 0), (0, 1, 0)],
    faces := [[0, 1, 2], [2, 3, 0]] }

/-- A shape with an empty face list. -/
def emptyShape : Shape := { vertices := [(0, 0, 0)], faces := [] }

/-- A single triangle, distinct from `unitSquare`. -/
def triShape : Shape :=
  { vertices := [(0, 0, 0), (1, 0, 0), (0, 1, 0)], faces := [[0, 1, 2]] }

/-- The renderer state right after the one-time setup of a fresh instance. -/
def st0 : RendererState :=
  (OpenGLRenderer.setup attrsFillOnly OpenGLRenderer.init).1

/-- C1: rendering the same shape twice in a row reuses the cached buffer
entry: the second call leaves the `geoms` cache unchanged entry for entry
(so its size stays constant), and its GL trace generates no new buffers,
because `_create_buffers` returns the existing key when the shape's
fingerprint is already present. -/
theorem render_twice_reuses_cache {attrs : SketchAttrs}
    {st st1 st2 : RendererState} {shape : Shape} {c1 c2 : List GLCall}
    (h1 : OpenGLRenderer.render attrs st shape = .ok (st1, c1))
    (h2 : OpenGLRenderer.render attrs st1 shape = .ok (st2, c2)) :
    st2.geoms = st1.geoms ∧ st2.geoms.length = st1.geoms.length ∧
    genBufferCalls c2 = [] := by
  obtain ⟨e1, hk1⟩ := render_ok_lookup_some h1
  obtain ⟨entry, hl', hg, hn, hu, hc, _⟩ :=
    draw_buffers_ok_inv (render_ok_hit hk1 h2)
  refine ⟨hg, by rw [hg], ?_⟩
  rw [hc]
  cases hf : attrs.fill_enabled <;> cases hs : attrs.stroke_enabled <;>
    simp [genBufferCalls, setupCalls, fillCalls, strokeCalls, hf, hs]

/-- C1 witness: rendering the unit square twice from a fresh, set-up
renderer. -/
def w1_first : Except PyError (RendererState × List GLCall) :=
  OpenGLRenderer.render attrsFillOnly st0 unitSquare

def w1_st1 : RendererState := resultState w1_first

def w1_c1 : List GLCall := resultCalls w1_first

def w1_second : Except PyError (RendererState × List GLCall) :=
  OpenGLRenderer.render attrsFillOnly w1_st1 unitSquare

def w1_st2 : RendererState := resultState w1_second

def w1_c2 : List GLCall := resultCalls w1_second

theorem render_twice_reuses_cache_witness :
    w1_st2.geoms = w1_st1.geoms ∧
    w1_st2.geoms.length = w1_st1.geoms.length ∧
    genBufferCalls w1_c2 = [] :=
  @render_twice_reuses_cache attrsFillOnly st0 w1_st1 w1_st2 unitSquare
    w1_c1 w1_c2 rfl rfl

/-- C3: with both the fill flag and the stroke flag disabled in the sketch
attributes, `render` issues no draw call at all: the trace contains neither
a triangles draw nor a line-loop draw. -/
theorem no_flags_no_draw_calls {attrs : SketchAttrs}
    {st st' : RendererState} {shape : Shape} {calls : List GLCall}
    (hf : attrs.fill_enabled = false) (hs : attrs.stroke_enabled = false)
    (hok : OpenGLRenderer.render attrs st shape = .ok (st', calls)) :
    drawCountsAll calls = [] ∧
    drawCounts DrawMode.triangles calls = [] ∧
    drawCounts DrawMode.lineLoop calls = [] := by
  cases hl : dictLookup st.geoms (shape_hash shape) with
  | some e =>
    obtain ⟨entry, _, _, _, _, hc, _⟩ :=
      draw_buffers_ok_inv (render_ok_hit hl hok)
    rw [hc]
    simp [drawCountsAll, drawCounts, setupCalls, hf, hs]
  | none =>
    obtain ⟨dc, hdb, hcalls⟩ := render_ok_miss hl hok
    obtain ⟨entry, _, _, _, _, hc, _⟩ := draw_buffers_ok_inv hdb
    rw [hcalls, hc]
    simp [drawCountsAll, drawCounts, setupCalls, createCalls, hf, hs]

/-- C3 witness: rendering a triangle with both flags off from a fresh
renderer. -/
def w3_run : Except PyError (RendererState × List GLCall) :=
  OpenGLRenderer.render attrsBothOff OpenGLRenderer.init triShape

def w3_st : RendererState := resultState w3_run

def w3_calls : List GLCall := resultCalls w3_run

theorem no_flags_no_draw_calls_witness :
    drawCountsAll w3_calls = [] ∧
    drawCounts DrawMode.triangles w3_calls = [] ∧
    drawCounts DrawMode.lineLoop w3_calls = [] :=
  @no_flags_no_draw_calls attrsBothOff OpenGLRenderer.init w3_st triShape
    w3_calls rfl rfl rfl

/-- C5: whenever stroke is enabled and `render` succeeds, the trace ends
with the stroke color being written into the uniform slot named
`fill_color` — there is no separate stroke uniform — immediately followed by
the line-loop draw. -/
theorem stroke_pass_targets_fill_color_uniform {attrs : SketchAttrs}
    {st st' : RendererState} {shape : Shape} {calls : List GLCall}
    (hs : attrs.stroke_enabled = true)
    (hok : OpenGLRenderer.render attrs st shape = .ok (st', calls)) :
    ∃ pre n, calls = pre ++
      [GLCall.setUniform "fill_color" attrs.stroke_color,
       GLCall.glDrawElements DrawMode.lineLoop n] := by
  cases hl : dictLookup st.geoms (shape_hash shape) with
  | some e =>
    obtain ⟨entry, _, _, _, _, hc, _⟩ :=
      draw_buffers_ok_inv (render_ok_hit hl hok)
    refine ⟨setupCalls entry ++
      (if attrs.fill_enabled then fillCalls attrs entry else []),
      entry.num_elements, ?_⟩
    rw [hc]
    simp [hs, strokeCalls]
  | none =>
    obtain ⟨dc, hdb, hcalls⟩ := render_ok_miss hl hok
    obtain ⟨entry, _, _, _, _, hc, _⟩ := draw_buffers_ok_inv hdb
    refine ⟨createCalls st shape ++ (setupCalls entry ++
      (if attrs.fill_enabled then fillCalls attrs entry else [])),
      entry.num_elements, ?_⟩
    rw [hcalls, hc]
    simp [hs, strokeCalls]

/-- C5 witness: rendering a triangle with stroke enabled from a fresh,
set-up renderer. -/
def w5_run : Except PyError (RendererState × List GLCall) :=
  OpenGLRenderer.render attrsStrokeOn st0 triShape

def w5_st : RendererState := resultState w5_run

def w5_calls : List GLCall := resultCalls w5_run

theorem stroke_pass_targets_fill_color_uniform_witness :
    ∃ pre n, w5_calls = pre ++
      [GLCall.setUniform "fill_color" attrsStrokeOn.stroke_color,
       GLCall.glDrawElements DrawMode.lineLoop n] :=
  @stroke_pass_targets_fill_color_uniform attrsStrokeOn st0 w5_st triShape
    w5_calls rfl rfl

/-- C10: after any successful `render` with stroke enabled, the shader's
`fill_color` uniform is left holding the stroke color, because the stroke
pass writes the stroke color into that slot after the fill pass (if any). -/
theorem stroke_leaves_stroke_color_in_uniform {attrs : SketchAttrs}
    {st st' : RendererState} {shape : Shape} {calls : List GLCall}
    (hs : attrs.stroke_enabled = true)
    (hok : OpenGLRenderer.render attrs st shape = .ok (st', calls)) :
    st'.shader_program.uniform_value "fill_color" =
      some attrs.stroke_color := by
  cases hl : dictLookup st.geoms (shape_hash shape) with
  | some e =>
    obtain ⟨entry, _, _, _, _, _, hval⟩ :=
      draw_buffers_ok_inv (render_ok_hit hl hok)
    exact hval hs
  | none =>
    obtain ⟨dc, hdb, _⟩ := render_ok_miss hl hok
    obtain ⟨entry, _, _, _, _, _, hval⟩ := draw_buffers_ok_inv hdb
    exact hval hs

/-- C10 witness: after the stroke-enabled run, the `fill_color` uniform
holds the stroke color. -/
theorem stroke_leaves_stroke_color_in_uniform_witness :
    w5_st.shader_program.uniform_value "fill_color" =
      some attrsStrokeOn.stroke_color :=
  @stroke_leaves_stroke_color_in_uniform attrsStrokeOn st0 w5_st triShape
    w5_calls rfl rfl

/-- C2: rendering a shape with 4 vertices and 2 triangular faces while fill
is enabled and stroke is disabled issues exactly one triangles draw call,
with element count 6 (the cache entry's total face indices), and zero
line-loop draw calls. -/
theorem square_fill_only_draw_calls {attrs : SketchAttrs}
    {st st' : RendererState} {shape : Shape} {calls : List GLCall}
    (hcons : CacheConsistent st)
    (_hv : shape.vertices.length = 4)
    (hf2 : shape.faces.length = 2)
    (hf3 : ∀ f ∈ shape.faces, f.length = 3)
    (hfill : attrs.fill_enabled = true)
    (hstroke : attrs.stroke_enabled = false)
    (hok : OpenGLRenderer.render attrs st shape = .ok (st', calls)) :
    drawCounts DrawMode.triangles calls = [6] ∧
    drawCounts DrawMode.lineLoop calls = [] := by
  have h6 : shape.faces.flatten.length = 6 := by
    obtain ⟨a, b, hab⟩ := List.length_eq_two.mp hf2
    have ha : a.length = 3 := hf3 a (by rw [hab]; exact List.mem_cons_self _ _)
    have hb : b.length = 3 :=
      hf3 b (by rw [hab]; exact List.mem_cons_of_mem _ (List.mem_cons_self _ _))
    rw [hab]
    simp [ha, hb]
  cases hl : dictLookup st.geoms (shape_hash shape) with
  | some e =>
    have he : e.num_elements = 6 := by
      have hmem := hcons _ (mem_of_dictLookup_some hl)
      simp only [shape_hash] at hmem
      rw [hmem, h6]
    obtain ⟨entry, hl', _, _, _, hc, _⟩ :=
      draw_buffers_ok_inv (render_ok_hit hl hok)
    rw [hl] at hl'
    cases hl'
    rw [hc]
    simp [drawCounts, setupCalls, fillCalls, strokeCalls, hfill, hstroke, he]
  | none =>
    obtain ⟨dc, hdb, hcalls⟩ := render_ok_miss hl hok
    obtain ⟨entry, hl', _, _, _, hc, _⟩ := draw_buffers_ok_inv hdb
    rw [dictLookup_stAfterCreate_self hl] at hl'
    cases hl'
    have he : (newGeomEntry st shape).num_elements = 6 := by
      simp [newGeomEntry, h6]
    rw [hcalls, hc]
    simp [drawCounts, setupCalls, fillCalls, strokeCalls, createCalls,
      hfill, hstroke, he]

/-- C2 witness: the unit square rendered from a fresh, set-up renderer with
fill enabled and stroke disabled. -/
def w2_run : Except PyError (RendererState × List GLCall) :=
  OpenGLRenderer.render attrsFillOnly st0 unitSquare

def w2_st : RendererState := resultState w2_run

def w2_calls : List GLCall := resultCalls w2_run

theorem square_fill_only_draw_calls_witness :
    drawCounts DrawMode.triangles w2_calls = [6] ∧
    drawCounts DrawMode.lineLoop w2_calls = [] :=
  @square_fill_only_draw_calls attrsFillOnly st0 w2_st unitSquare w2_calls
    (by decide) rfl rfl (by decide) rfl rfl rfl

/-- C4: a shape with an empty face list renders without an error — provided
the `fill_color` uniform is registered (which `initialize` guarantees) and
the cache is consistent — and every draw call it issues has element count 0:
the cache entry records zero elements, so the draws are no-ops rather than
failures. -/
theorem empty_faces_render_ok {attrs : SketchAttrs} {st : RendererState}
    {shape : Shape}
    (hcons : CacheConsistent st)
    (hreg : "fill_color" ∈ st.shader_program.uniform_names)
    (hfaces : shape.faces = []) :
    ∃ st' calls, OpenGLRenderer.render attrs st shape = .ok (st', calls) ∧
      ∀ n ∈ drawCountsAll calls, n = 0 := by
  cases hl : dictLookup st.geoms (shape_hash shape) with
  | some e =>
    have he : e.num_elements = 0 := by
      have hmem := hcons _ (mem_of_dictLookup_some hl)
      simp only [shape_hash] at hmem
      rw [hmem, hfaces]
      rfl
    obtain ⟨st', hdraw⟩ :=
      @draw_buffers_ok_of_reg attrs st (shape_hash shape) e hl hreg
    refine ⟨st', setupCalls e ++
      (if attrs.fill_enabled then fillCalls attrs e else []) ++
      (if attrs.stroke_enabled then strokeCalls attrs e else []), ?_, ?_⟩
    · simp [OpenGLRenderer.render, create_buffers_hit hl, hdraw]
    · cases hf : attrs.fill_enabled <;> cases hs : attrs.stroke_enabled <;>
        simp [drawCountsAll, setupCalls, fillCalls, strokeCalls, hf, hs, he]
  | none =>
    have hl' := dictLookup_stAfterCreate_self hl
    have hreg' : "fill_color" ∈
        (stAfterCreate st shape).shader_program.uniform_names := hreg
    have he : (newGeomEntry st shape).num_elements = 0 := by
      simp [newGeomEntry, hfaces]
    obtain ⟨st', hdraw⟩ :=
      @draw_buffers_ok_of_reg attrs (stAfterCreate st shape)
        (shape_hash shape) (newGeomEntry st shape) hl' hreg'
    refine ⟨st', createCalls st shape ++
      (setupCalls (newGeomEntry st shape) ++
      (if attrs.fill_enabled then fillCalls attrs (newGeomEntry st shape)
       else []) ++
      (if attrs.stroke_enabled then strokeCalls attrs (newGeomEntry st shape)
       else [])), ?_, ?_⟩
    · simp [OpenGLRenderer.render, create_buffers_miss hl, hdraw]
    · cases hf : attrs.fill_enabled <;> cases hs : attrs.stroke_enabled <;>
        simp [drawCountsAll, setupCalls, fillCalls, strokeCalls, createCalls,
          hf, hs, he]

/-- C4 witness: the empty-faced shape rendered from a fresh, set-up
renderer. -/
theorem empty_faces_render_ok_witness :
    ∃ st' calls,
      OpenGLRenderer.render attrsFillOnly st0 emptyShape =
        .ok (st', calls) ∧
      ∀ n ∈ drawCountsAll calls, n = 0 :=
  @empty_faces_render_ok attrsFillOnly st0 emptyShape (by decide) (by decide)
    rfl

/-- C6 counterexample: the one-time setup performs no capability check —
its GL trace contains no capability-check event — and `check_support` on the
OpenGL renderer is the inherited abstract method, raising
`NotImplementedError` rather than the documented capability `RuntimeError`. -/
theorem setup_no_capability_check_cex :
    OpenGLRenderer.check_support =
      Except.error (PyError.notImplementedError "Abstract") ∧
    GLCall.checkSupport ∉
      (OpenGLRenderer.setup attrsFillOnly OpenGLRenderer.init).2 :=
  ⟨rfl, by decide⟩

/-- C6 (amended): `check_support` is declared on the base renderer and
documented to raise `RuntimeError` when the renderer is unsupported, but the
OpenGL renderer neither overrides it (calling it raises
`NotImplementedError`) nor invokes it: the one-time setup proceeds directly
to depth-test, viewport and shader initialization with no capability check. -/
theorem setup_proceeds_without_capability_check
    (attrs : SketchAttrs) (st : RendererState) :
    OpenGLRenderer.setup attrs st =
      ({ st with shader_program :=
          st.shader_program.add_uniform "fill_color" },
       [GLCall.glEnableDepthTest, GLCall.glDepthFunc,
        GLCall.glViewport attrs.width attrs.height]) ∧
    GLCall.checkSupport ∉ (OpenGLRenderer.setup attrs st).2 ∧
    OpenGLRenderer.check_support =
      Except.error (PyError.notImplementedError "Abstract") := by
  refine ⟨rfl, ?_, rfl⟩
  simp [OpenGLRenderer.setup, OpenGLRenderer._init_shaders]

theorem render_list_grows {attrs : SketchAttrs} {shapes : List Shape} :
    ∀ {st stN : RendererState},
    shapes.Nodup →
    (∀ s ∈ shapes, dictLookup st.geoms (shape_hash s) = none) →
    render_list attrs st shapes = .ok stN →
    stN.geoms.length = st.geoms.length + shapes.length ∧
    (∀ p ∈ st.geoms, p ∈ stN.geoms) := by
  induction shapes with
  | nil =>
    intro st stN _ _ hok
    simp only [render_list] at hok
    cases hok
    simp
  | cons s rest ih =>
    intro st stN hnodup hfresh hok
    simp only [render_list] at hok
    split at hok
    · cases hok
    · rename_i st1 c hr
      obtain ⟨hs_notin, hnodup_rest⟩ := List.nodup_cons.mp hnodup
      have hl : dictLookup st.geoms (shape_hash s) = none :=
        hfresh s (List.mem_cons_self _ _)
      have hg1 : st1.geoms =
          st.geoms ++ [(shape_hash s, newGeomEntry st s)] :=
        render_ok_geoms_miss hl hr
      have hfresh1 : ∀ s' ∈ rest,
          dictLookup st1.geoms (shape_hash s') = none := by
        intro s' hs'
        rw [hg1, dictLookup_append_of_none _
          (hfresh s' (List.mem_cons_of_mem _ hs'))]
        have hne : shape_hash s ≠ shape_hash s' := by
          simp only [shape_hash]
          intro h
          subst h
          exact hs_notin hs'
        simp [dictLookup, hne]
      obtain ⟨hlen, hmem⟩ := ih hnodup_rest hfresh1 hok
      constructor
      · rw [hlen, hg1]
        simp only [List.length_append, List.length_cons, List.length_nil]
        omega
      · intro p hp
        exact hmem p (by rw [hg1]; exact List.mem_append_left _ hp)

/-- C7: the shape-buffer cache never evicts: a successful run over `n`
pairwise-distinct fresh shapes grows the cache to exactly `n` more entries
with every previously inserted entry still present, and neither `clear` nor
the one-time setup removes an entry. -/
theorem cache_never_evicts {attrs : SketchAttrs} {st stN : RendererState}
    {shapes : List Shape}
    (hnodup : shapes.Nodup)
    (hfresh : ∀ s ∈ shapes, dictLookup st.geoms (shape_hash s) = none)
    (hok : render_list attrs st shapes = .ok stN) :
    stN.geoms.length = st.geoms.length + shapes.length ∧
    (∀ p ∈ st.geoms, p ∈ stN.geoms) ∧
    (OpenGLRenderer.clear attrs st).1.geoms = st.geoms ∧
    (OpenGLRenderer.setup attrs st).1.geoms = st.geoms := by
  obtain ⟨hlen, hmem⟩ := render_list_grows hnodup hfresh hok
  exact ⟨hlen, hmem, rfl, rfl⟩

/-- C7 witness: two distinct shapes rendered from a fresh renderer. -/
def w7_result : Except PyError RendererState :=
  render_list attrsBothOff OpenGLRenderer.init [triShape, unitSquare]

def w7_stN : RendererState :=
  match w7_result with
  | .ok st => st
  | .error _ => OpenGLRenderer.init

theorem cache_never_evicts_witness :
    w7_stN.geoms.length = OpenGLRenderer.init.geoms.length + 2 ∧
    (∀ p ∈ OpenGLRenderer.init.geoms, p ∈ w7_stN.geoms) ∧
    (OpenGLRenderer.clear attrsBothOff OpenGLRenderer.init).1.geoms =
      OpenGLRenderer.init.geoms ∧
    (OpenGLRenderer.setup attrsBothOff OpenGLRenderer.init).1.geoms =
      OpenGLRenderer.init.geoms :=
  @cache_never_evicts attrsBothOff OpenGLRenderer.init w7_stN
    [triShape, unitSquare] (by decide) (by decide) rfl

/-- C8 counterexample: `cleanup` on the base renderer does not signal an
unimplemented-capability error — its body is `pass`, so it silently returns. -/
theorem base_cleanup_is_noop_cex :
    BaseRenderer.cleanup = Except.ok () ∧
    ¬ ∃ msg, BaseRenderer.cleanup =
        Except.error (PyError.notImplementedError msg) := by
  refine ⟨rfl, ?_⟩
  rintro ⟨msg, h⟩
  simp [BaseRenderer.cleanup] at h

/-- C8 (amended): on the base renderer, `initialize`, `render` and `clear`
(and `check_support`) raise `NotImplementedError`, while `cleanup` — like
the per-frame hooks `pre_render` and `post_render` — is a silent no-op. -/
theorem base_abstract_methods_raise_except_cleanup (shape : Shape) :
    BaseRenderer.setup =
      Except.error (PyError.notImplementedError "Abstract") ∧
    BaseRenderer.render shape =
      Except.error (PyError.notImplementedError "Abstract") ∧
    BaseRenderer.clear =
      Except.error (PyError.notImplementedError "Abstract") ∧
    BaseRenderer.check_support =
      Except.error (PyError.notImplementedError "Abstract") ∧
    BaseRenderer.cleanup = Except.ok () ∧
    BaseRenderer.pre_render = Except.ok () ∧
    BaseRenderer.post_render = Except.ok () :=
  ⟨rfl, rfl, rfl, rfl, rfl, rfl, rfl⟩

/-- C9: the renderer never mutates the externally owned sketch attributes:
a successful `render` step and a `clear` step leave them identical. -/
theorem renderer_never_mutates_sketch_attrs {w w' : World} {shape : Shape}
    {calls : List GLCall}
    (hr : render_step w shape = .ok (w', calls)) :
    w'.sketch_attrs = w.sketch_attrs ∧
    (clear_step w).1.sketch_attrs = w.sketch_attrs := by
  refine ⟨?_, rfl⟩
  unfold render_step at hr
  split at hr
  · cases hr
  · rename_i st c hq
    cases hr
    rfl

/-- C9 witness: a stroke-enabled render step on a fresh, set-up world. -/
def w9 : World := { sketch_attrs := attrsStrokeOn, renderer := st0 }

def w9_run : Except PyError (World × List GLCall) := render_step w9 triShape

def w9_w : World :=
  match w9_run with
  | .ok (w, _) => w
  | .error _ => w9

def w9_calls : List GLCall :=
  match w9_run with
  | .ok (_, calls) => calls
  | .error _ => []

theorem renderer_never_mutates_sketch_attrs_witness :
    w9_w.sketch_attrs = w9.sketch_attrs ∧
    (clear_step w9).1.sketch_attrs = w9.sketch_attrs :=
  @renderer_never_mutates_sketch_attrs w9 w9_w triShape w9_calls rfl

end P5
